import Mathlib

/-!
Verification of the request-relay and failure-translation component of the
medical-chatbot backend (`src/app.py`).

The Python code is embedded shallowly.  One call to the Gateway observes a
fixed behaviour of the upstream inference server, modelled by `Env`:
the outcome of the liveness probe (`GET /api/tags`, lines 15-21) and the
outcome of the generation call (`POST /api/generate`, lines 49-86).  Each
`except` arm of `process_medical_query` corresponds to one constructor of
`UpstreamGen`.  Machine strings are Lean `String`s; the conversation history
(`self.conversation_history`) is threaded explicitly as a `List Exchange`.
-/

/-- One entry of `conversation_history` (app.py lines 66-70):
`{'user': ..., 'bot': ..., 'timestamp': ...}`. -/
structure Exchange where
  user : String
  bot : String
  timestamp : String
deriving DecidableEq, Repr

/-- Outcome of the liveness probe `requests.get("http://localhost:11434/api/tags")`
(app.py lines 17-21): either an HTTP response with some status code, or any
exception (caught by the bare `except:`). -/
inductive ProbeOutcome where
  | response (status : Nat)
  | exn
deriving DecidableEq, Repr

/-- Outcome of the generation call `requests.post(self.ollama_url, ...)`
(app.py lines 49-54) as observed by `process_medical_query`:
an HTTP response carrying a status code and the optional `response` field of
its JSON body (`result.get('response', '')`, line 60), or one of the
exceptions handled by lines 78-86. -/
inductive UpstreamGen where
  | httpResponse (status : Nat) (responseField : Option String)
  | timeoutExn
  | connectionExn
  | requestExn (e : String)
  | otherExn (e : String)
deriving DecidableEq, Repr

/-- The upstream behaviour observed during one Gateway call, plus the wall
clock (`datetime.now().isoformat()`) frozen for that call. -/
structure Env where
  probe : ProbeOutcome
  gen : UpstreamGen
  now : String
deriving DecidableEq, Repr

/-- `self.model` default (app.py line 10). -/
def modelName : String := "llama3.2:3b"

/-- Python `str.strip()` (no argument): remove leading and trailing
whitespace.  Defined structurally on the character list so it is fully
executable. -/
def strip (s : String) : String :=
  ⟨((s.data.dropWhile Char.isWhitespace).reverse.dropWhile Char.isWhitespace).reverse⟩

/-- `test_ollama_connection` (app.py lines 15-21): true exactly when the probe
returned an HTTP response with status 200; any exception yields false. -/
def test_ollama_connection (env : Env) : Bool :=
  match env.probe with
  | .response status => status == 200
  | .exn => false

/-- Error taxonomy (spec section 7), mapped onto the source branches:
`connectionError` covers the probe rejection (line 27) and the
`ConnectionError` handler (line 81); `networkError` is the
`RequestException` handler (line 83); `internal` is the final
`except Exception` handler (line 86). -/
inductive ErrorKind where
  | connectionError
  | upstreamError
  | emptyResponse
  | timeout
  | networkError
  | internal
deriving DecidableEq, Repr

/-- GatewayResult (spec section 3): `ok` is the branch that returns
`ai_response` (line 72); `failed` tags every other `return` of
`process_medical_query` with its branch's kind and the exact string the
source returns there. -/
inductive GatewayResult where
  | ok (text : String)
  | failed (kind : ErrorKind) (message : String)
deriving DecidableEq, Repr

/-- The user-visible string of a result: the source returns these strings
directly (there is no tagged union in the Python code). -/
def GatewayResult.render : GatewayResult → String
  | .ok text => text
  | .failed _ message => message

/-- The error kind of a result, `none` for `ok`. -/
def GatewayResult.kindOf : GatewayResult → Option ErrorKind
  | .ok _ => none
  | .failed kind _ => some kind

/-- app.py line 27. -/
def connectionRefusedMsg : String :=
  "❌ Cannot connect to Ollama server. Please make sure Ollama is running with \x27ollama serve\x27"

/-- app.py line 63. -/
def emptyResponseMsg : String :=
  "⚠️ Received empty response from AI model. Try asking your question differently."

/-- app.py line 76. -/
def upstreamErrorMsg (status : Nat) : String :=
  "🔧 Ollama server error (Status " ++ toString status ++
    "). Make sure the model \x27" ++ modelName ++
    "\x27 is installed with: ollama pull " ++ modelName

/-- app.py line 79. -/
def timeoutMsg : String :=
  "⏱️ Request timed out. The AI model might be loading. Please wait a moment and try again."

/-- app.py line 81. -/
def connectionErrorMsg : String :=
  "🔌 Cannot connect to Ollama server. Please ensure Ollama is running with \x27ollama serve\x27"

/-- app.py line 83: embeds `str(e)`. -/
def networkErrorMsg (e : String) : String :=
  "🚫 Network error: " ++ e

/-- app.py line 86. -/
def unexpectedErrorMsg : String :=
  "⚠️ An unexpected error occurred. Please try again."

/-- Result of one call to `process_medical_query`: the returned value
(classified), the chatbot state after the call, and whether the generation
call (`requests.post`, line 49) was attempted. -/
structure QueryOutcome where
  result : GatewayResult
  conversation_history : List Exchange
  generationAttempted : Bool
deriving DecidableEq, Repr

/-- `process_medical_query` (app.py lines 23-86).  `if not self.test_ollama_connection()`
rejects before any generation call; otherwise the generation call's outcome
is classified exactly as in lines 58-86.  Python's `if not ai_response`
on a string is the empty-string test, and `result.get('response', '')`
defaults the absent field to the empty string. -/
def process_medical_query (env : Env) (user_input : String)
    (conversation_history : List Exchange) : QueryOutcome :=
  if test_ollama_connection env = false then
    ⟨.failed .connectionError connectionRefusedMsg, conversation_history, false⟩
  else
    match env.gen with
    | .httpResponse status responseField =>
      if status = 200 then
        let ai_response := responseField.getD ""
        if ai_response = "" then
          ⟨.failed .emptyResponse emptyResponseMsg, conversation_history, true⟩
        else
          ⟨.ok ai_response,
           conversation_history ++ [⟨user_input, ai_response, env.now⟩], true⟩
      else
        ⟨.failed .upstreamError (upstreamErrorMsg status), conversation_history, true⟩
    | .timeoutExn => ⟨.failed .timeout timeoutMsg, conversation_history, true⟩
    | .connectionExn => ⟨.failed .connectionError connectionErrorMsg, conversation_history, true⟩
    | .requestExn e => ⟨.failed .networkError (networkErrorMsg e), conversation_history, true⟩
    | .otherExn _ => ⟨.failed .internal unexpectedErrorMsg, conversation_history, true⟩

/-- `get_conversation_history` would return the list object itself; the pure
view of its contents (app.py lines 88-90). -/
def get_conversation_history (conversation_history : List Exchange) : List Exchange :=
  conversation_history

/-- `s` has `pat` as a contiguous substring. -/
def ContainsSubstr (s pat : String) : Prop :=
  ∃ pre post : List Char, s.data = pre ++ (pat.data ++ post)

/-- JSON body produced by the `/chat` route: either the 400/500 error shape
`{'error': ...}` or the 200 shape `{'response': ..., 'timestamp': ...}`
(app.py lines 109 and 118-121). -/
inductive ChatBody where
  | err (msg : String)
  | reply (response : String) (timestamp : String)
deriving DecidableEq, Repr

/-- What one `POST /chat` request produces: HTTP status, JSON body, whether
`medical_bot.process_medical_query` was invoked, and the conversation
history afterwards. -/
structure ChatResponse where
  status : Nat
  body : ChatBody
  gatewayInvoked : Bool
  conversation_history : List Exchange
deriving DecidableEq, Repr

/-- The `/chat` route handler (app.py lines 101-121) on a request whose JSON
body is an object with an optional string `message` field:
`data.get('message', '').strip()` is `strip (messageField.getD "")`, an empty
result yields 400 with the fixed error body before the Gateway is touched,
and otherwise the Gateway's string is relayed with status 200. -/
def chat (env : Env) (messageField : Option String)
    (conversation_history : List Exchange) : ChatResponse :=
  let user_message := strip (messageField.getD "")
  if user_message = "" then
    ⟨400, .err "Message cannot be empty", false, conversation_history⟩
  else
    let o := process_medical_query env user_message conversation_history
    ⟨200, .reply o.result.render env.now, true, o.conversation_history⟩

/-- `/history` route (app.py lines 127-131): serialises the history. -/
def get_history (conversation_history : List Exchange) : List Exchange :=
  get_conversation_history conversation_history

/-!
Python object identity, needed to settle whether `get_conversation_history`
returns a snapshot.  The source (line 90) is `return self.conversation_history`:
it returns the stored list object itself, with no `list(...)` or `.copy()`
anywhere in the file.  We model the one heap cell that matters — the list
object held in `self.conversation_history` — and let a returned value be
either that object or a detached copy.
-/

/-- A Python list value as seen by a caller: either the very object stored in
`self.conversation_history`, or a distinct snapshot object holding copied
contents.  The source only ever produces `internalLog`. -/
inductive ListRef where
  | internalLog
  | snapshot (contents : List Exchange)
deriving DecidableEq, Repr

/-- The chatbot's heap: the contents of the list object referenced by
`self.conversation_history`. -/
structure BotHeap where
  conversation_history : List Exchange
deriving DecidableEq, Repr

/-- Reading through a reference: the internal object reads the heap cell, a
snapshot reads its own copied contents. -/
def ListRef.read (r : ListRef) (h : BotHeap) : List Exchange :=
  match r with
  | .internalLog => h.conversation_history
  | .snapshot contents => contents

/-- `get_conversation_history` as the source writes it (line 90): it returns
the stored list object itself — no copy is made. -/
def get_conversation_history_ref (_ : BotHeap) : ListRef :=
  .internalLog

/-- Python `lst.append(e)` performed through a reference: mutating the
internal object mutates the heap cell; mutating a snapshot leaves the heap
unchanged. -/
def appendThrough (r : ListRef) (e : Exchange) (h : BotHeap) : BotHeap :=
  match r with
  | .internalLog => ⟨h.conversation_history ++ [e]⟩
  | .snapshot _ => h

/-- The text a call with environment `env` stores on success: `some t` exactly
when the probe passes, the generation status is 200 and the extracted
`response` field is non-empty — read off the same branch structure as
`process_medical_query`. -/
def successText (env : Env) : Option String :=
  if test_ollama_connection env = false then none
  else
    match env.gen with
    | .httpResponse status responseField =>
      if status = 200 then
        if responseField.getD "" = "" then none else some (responseField.getD "")
      else none
    | _ => none

/-- The entries one call appends: one `Exchange` on success, none otherwise. -/
def newEntries (env : Env) (input : String) : List Exchange :=
  match successText env with
  | some t => [⟨input, t, env.now⟩]
  | none => []

/-- Running a sequence of Gateway calls, threading the history. -/
def runCalls (calls : List (Env × String)) (conversation_history : List Exchange) :
    List Exchange :=
  match calls with
  | [] => conversation_history
  | c :: rest => runCalls rest (process_medical_query c.1 c.2 conversation_history).conversation_history

/-- The exchanges a call sequence is expected to leave behind: one per
successful call, in call order. -/
def expectedExchanges (calls : List (Env × String)) : List Exchange :=
  calls.flatMap fun c => newEntries c.1 c.2

lemma process_history_append (env : Env) (input : String) (hist : List Exchange) :
    (process_medical_query env input hist).conversation_history = hist ++ newEntries env input := by
  rcases env with ⟨probe, gen, now⟩
  unfold process_medical_query newEntries successText
  by_cases hc : test_ollama_connection ⟨probe, gen, now⟩ = false
  · simp [hc]
  · simp only [hc, if_false]
    cases gen with
    | httpResponse status responseField =>
      by_cases hs : status = 200
      · subst hs
        by_cases he : responseField.getD "" = "" <;> simp [he]
      · simp [hs]
    | timeoutExn => simp
    | connectionExn => simp
    | requestExn e => simp
    | otherExn e => simp

lemma process_result_ok_iff (env : Env) (input : String) (hist : List Exchange) (t : String) :
    (process_medical_query env input hist).result = .ok t ↔ successText env = some t := by
  rcases env with ⟨probe, gen, now⟩
  unfold process_medical_query successText
  by_cases hc : test_ollama_connection ⟨probe, gen, now⟩ = false
  · simp [hc]
  · simp only [hc, if_false]
    cases gen with
    | httpResponse status responseField =>
      by_cases hs : status = 200
      · subst hs
        by_cases he : responseField.getD "" = "" <;> simp [he]
      · simp [hs]
    | timeoutExn => simp
    | connectionExn => simp
    | requestExn e => simp
    | otherExn e => simp

lemma successText_ne_empty (env : Env) (t : String) (h : successText env = some t) :
    t ≠ "" := by
  rcases env with ⟨probe, gen, now⟩
  unfold successText at h
  by_cases hc : test_ollama_connection ⟨probe, gen, now⟩ = false
  · simp [hc] at h
  · simp only [hc, if_false] at h
    cases gen with
    | httpResponse status responseField =>
      by_cases hs : status = 200
      · subst hs
        by_cases he : responseField.getD "" = "" <;> simp [he] at h
        exact h ▸ he
      · simp [hs] at h
    | timeoutExn => simp at h
    | connectionExn => simp at h
    | requestExn e => simp at h
    | otherExn e => simp at h

lemma hist_append_singleton_ne (hist : List Exchange) (e : Exchange) :
    hist ++ [e] ≠ hist := by
  intro h
  have := congrArg List.length h
  simp at this

/-- C1: a new `Exchange` is appended to `conversation_history` if and only if
`process_medical_query` takes the success branch (result `ok t` with `t`
non-empty); every failure branch — probe rejection, non-200 status, empty
response, timeout, connection error, network error, unexpected exception —
returns the history unchanged. -/
theorem generate_appends_iff_ok (env : Env) (input : String) (hist : List Exchange) :
    ((∃ t, (process_medical_query env input hist).result = .ok t) ↔
      (process_medical_query env input hist).conversation_history ≠ hist) ∧
    (∀ k m, (process_medical_query env input hist).result = .failed k m →
      (process_medical_query env input hist).conversation_history = hist) ∧
    (∀ t, (process_medical_query env input hist).result = .ok t →
      t ≠ "" ∧
      (process_medical_query env input hist).conversation_history
        = hist ++ [⟨input, t, env.now⟩]) := by
  have hh := process_history_append env input hist
  refine ⟨⟨?_, ?_⟩, ?_, ?_⟩
  · rintro ⟨t, ht⟩
    have hs := (process_result_ok_iff env input hist t).mp ht
    rw [hh]
    unfold newEntries
    rw [hs]
    exact hist_append_singleton_ne hist _
  · intro hne
    rw [hh] at hne
    unfold newEntries at hne
    cases hs : successText env with
    | none => rw [hs] at hne; simp at hne
    | some t => exact ⟨t, (process_result_ok_iff env input hist t).mpr hs⟩
  · intro k m hfail
    rw [hh]
    unfold newEntries
    cases hs : successText env with
    | none => simp
    | some t =>
      have := (process_result_ok_iff env input hist t).mpr hs
      rw [hfail] at this
      exact absurd this (by simp)
  · intro t ht
    have hs := (process_result_ok_iff env input hist t).mp ht
    refine ⟨successText_ne_empty env t hs, ?_⟩
    rw [hh]
    unfold newEntries
    rw [hs]

/-- C2: for every non-blank input and every modelled upstream behaviour
(unreachable probe, any status, any body, timeout, connection refused,
any other exception), `process_medical_query` is a total function producing
exactly one result, which is `ok` or `failed` but never both; no branch
raises to the caller. -/
theorem generate_exactly_one_result (env : Env) (input : String) (hist : List Exchange)
    (hne : strip input ≠ "") :
    ((∃ t, (process_medical_query env input hist).result = .ok t) ∨
      (∃ k m, (process_medical_query env input hist).result = .failed k m)) ∧
    ((∃ t, (process_medical_query env input hist).result = .ok t) ↔
      ¬ ∃ k m, (process_medical_query env input hist).result = .failed k m) := by
  cases hr : (process_medical_query env input hist).result with
  | ok t => simp [hr]
  | failed k m => simp [hr]

/-- Witness for C2 at a concrete non-blank input and a concrete environment. -/
theorem generate_exactly_one_result_witness :
    (strip "hello" ≠ "") ∧
    ((∃ t, (process_medical_query ⟨.exn, .timeoutExn, "t0"⟩ "hello" []).result = .ok t) ∨
      (∃ k m, (process_medical_query ⟨.exn, .timeoutExn, "t0"⟩ "hello" []).result = .failed k m)) :=
  ⟨by decide, (generate_exactly_one_result ⟨.exn, .timeoutExn, "t0"⟩ "hello" [] (by decide)).1⟩

/-- C3: whenever `test_ollama_connection` is false, `process_medical_query`
returns the connection-error rejection (kind `connectionError`, whose message
tells the user to make sure Ollama is running) without attempting the
generation call and without touching the history. -/
theorem generate_rejects_without_generation_call (env : Env) (input : String)
    (hist : List Exchange) (h : test_ollama_connection env = false) :
    process_medical_query env input hist
        = ⟨.failed .connectionError connectionRefusedMsg, hist, false⟩ ∧
    ContainsSubstr connectionRefusedMsg "make sure Ollama is running" := by
  constructor
  · unfold process_medical_query
    simp [h]
  · exact ⟨"❌ Cannot connect to Ollama server. Please ".data,
      " with \x27ollama serve\x27".data, by decide⟩

/-- Witness for C3: a probe that raises (connection refused) rejects the call
before any generation attempt. -/
theorem generate_rejects_without_generation_call_witness :
    (test_ollama_connection ⟨.exn, .httpResponse 200 (some "hello"), "t0"⟩ = false) ∧
    (process_medical_query ⟨.exn, .httpResponse 200 (some "hello"), "t0"⟩ "flu symptoms" []
        = ⟨.failed .connectionError connectionRefusedMsg, [], false⟩) :=
  ⟨by decide,
    (generate_rejects_without_generation_call ⟨.exn, .httpResponse 200 (some "hello"), "t0"⟩
      "flu symptoms" [] (by decide)).1⟩

/-- C4: a non-2xx status from the generation call yields kind
`upstreamError`, with a message containing the received status code and the
configured model name (in an install/pull hint). -/
theorem generate_non2xx_upstream_error (env : Env) (input : String) (hist : List Exchange)
    (status : Nat) (responseField : Option String)
    (hok : test_ollama_connection env = true)
    (hgen : env.gen = .httpResponse status responseField)
    (hstatus : ¬ (200 ≤ status ∧ status ≤ 299)) :
    (process_medical_query env input hist).result
        = .failed .upstreamError (upstreamErrorMsg status) ∧
    ContainsSubstr (upstreamErrorMsg status) (toString status) ∧
    ContainsSubstr (upstreamErrorMsg status) modelName := by
  have h200 : status ≠ 200 := by
    intro h
    exact hstatus ⟨by omega, by omega⟩
  refine ⟨?_, ?_, ?_⟩
  · unfold process_medical_query
    rw [hgen]
    simp [hok, h200]
  · exact ⟨"🔧 Ollama server error (Status ".data,
      ("). Make sure the model \x27" ++ modelName ++
        "\x27 is installed with: ollama pull " ++ modelName).data,
      by simp [upstreamErrorMsg, String.data_append]⟩
  · exact ⟨("🔧 Ollama server error (Status " ++ toString status ++
        "). Make sure the model \x27").data,
      ("\x27 is installed with: ollama pull " ++ modelName).data,
      by simp [upstreamErrorMsg, String.data_append]⟩

/-- Witness for C4 at status 404. -/
theorem generate_non2xx_upstream_error_witness :
    (test_ollama_connection ⟨.response 200, .httpResponse 404 (some "nf"), "t0"⟩ = true) ∧
    ¬ (200 ≤ 404 ∧ 404 ≤ 299) ∧
    (process_medical_query ⟨.response 200, .httpResponse 404 (some "nf"), "t0"⟩ "hi" []).result
        = .failed .upstreamError (upstreamErrorMsg 404) :=
  ⟨by decide, by decide,
    (generate_non2xx_upstream_error ⟨.response 200, .httpResponse 404 (some "nf"), "t0"⟩
      "hi" [] 404 (some "nf") (by decide) rfl (by decide)).1⟩

/-- C5 counterexample: status 201 is 2xx and the extracted response field is
empty, yet the code branches on `status == 200` only, so the result is the
upstream-error branch, not `emptyResponse`. -/
theorem empty_response_requires_exactly_200 :
    (200 ≤ 201 ∧ 201 ≤ 299) ∧
    ((process_medical_query ⟨.response 200, .httpResponse 201 (some ""), "t0"⟩ "q" []).result
        = .failed .upstreamError (upstreamErrorMsg 201)) ∧
    ((process_medical_query ⟨.response 200, .httpResponse 201 (some ""), "t0"⟩ "q" []).result.kindOf
        ≠ some .emptyResponse) := by
  refine ⟨by decide, by decide, by decide⟩

/-- C5 amended: a status of exactly 200 whose extracted response field is
empty or absent yields `emptyResponse`, with the fixed rephrase hint and no
history change.  (Any other status, 2xx included, takes the upstream-error
branch instead.) -/
theorem generate_empty_response (env : Env) (input : String) (hist : List Exchange)
    (responseField : Option String)
    (hok : test_ollama_connection env = true)
    (hgen : env.gen = .httpResponse 200 responseField)
    (hempty : responseField.getD "" = "") :
    (process_medical_query env input hist).result = .failed .emptyResponse emptyResponseMsg ∧
    (process_medical_query env input hist).conversation_history = hist ∧
    ContainsSubstr emptyResponseMsg "Try asking your question differently" := by
  refine ⟨?_, ?_, ?_⟩
  · unfold process_medical_query
    rw [hgen]
    simp [hok, hempty]
  · unfold process_medical_query
    rw [hgen]
    simp [hok, hempty]
  · exact ⟨"⚠️ Received empty response from AI model. ".data, ".".data, by decide⟩

/-- Witness for the amended C5 with an absent response field. -/
theorem generate_empty_response_witness :
    (test_ollama_connection ⟨.response 200, .httpResponse 200 none, "t0"⟩ = true) ∧
    ((Option.getD (none : Option String) "") = "") ∧
    ((process_medical_query ⟨.response 200, .httpResponse 200 none, "t0"⟩ "q" []).result
        = .failed .emptyResponse emptyResponseMsg) :=
  ⟨by decide, by decide,
    (generate_empty_response ⟨.response 200, .httpResponse 200 none, "t0"⟩ "q" [] none
      (by decide) rfl (by decide)).1⟩

/-- C7: a missing `message` field, or one that is blank after stripping,
makes `/chat` answer 400 with exactly `{'error': 'Message cannot be empty'}`;
the Gateway is not invoked and the history is untouched. -/
theorem chat_blank_message_400 (env : Env) (messageField : Option String)
    (hist : List Exchange) (h : strip (messageField.getD "") = "") :
    chat env messageField hist = ⟨400, .err "Message cannot be empty", false, hist⟩ := by
  unfold chat
  simp [h]

/-- Witness for C7 with `{"message": "   "}`. -/
theorem chat_blank_message_400_witness :
    (strip ((some "   ").getD "") = "") ∧
    (chat ⟨.response 200, .httpResponse 200 (some "hello"), "t0"⟩ (some "   ") []
        = ⟨400, .err "Message cannot be empty", false, []⟩) :=
  ⟨by decide,
    chat_blank_message_400 ⟨.response 200, .httpResponse 200 (some "hello"), "t0"⟩
      (some "   ") [] (by decide)⟩

/-- C8 counterexample: `return self.conversation_history` hands out the
internal list object itself, so appending through the returned value is seen
by the very next read — contradicting the no-mutation-through-snapshot claim
at the concrete heap `⟨[]⟩`. -/
theorem history_not_a_snapshot :
    ((get_conversation_history_ref ⟨[]⟩).read ⟨[]⟩ = ([] : List Exchange)) ∧
    ((get_conversation_history_ref ⟨[]⟩).read
        (appendThrough (get_conversation_history_ref ⟨[]⟩) ⟨"u", "b", "t"⟩ ⟨[]⟩)
        = [⟨"u", "b", "t"⟩]) ∧
    ([] : List Exchange) ≠ [(⟨"u", "b", "t"⟩ : Exchange)] :=
  ⟨rfl, rfl, by decide⟩

/-- C8 amended: `get_conversation_history` returns the internal list object
itself (an alias, not a copy), whose contents read back in insertion order;
a mutation performed through the returned value IS visible to later reads of
the log. -/
theorem get_history_returns_alias (h : BotHeap) (e : Exchange) :
    (get_conversation_history_ref h = ListRef.internalLog) ∧
    ((get_conversation_history_ref h).read h = h.conversation_history) ∧
    ((appendThrough (get_conversation_history_ref h) e h).conversation_history
        = h.conversation_history ++ [e]) :=
  ⟨rfl, rfl, rfl⟩

/-- C9 counterexample: the `RequestException` handler (app.py line 83)
returns `f"🚫 Network error: {str(e)}"`, so an exception whose text is
`"boom"` surfaces that text verbatim in the failure message. -/
theorem failure_message_embeds_exception_text :
    ((process_medical_query ⟨.response 200, .requestExn "boom", "t0"⟩ "q" []).result
        = .failed .networkError "🚫 Network error: boom") ∧
    ContainsSubstr "🚫 Network error: boom" "boom" :=
  ⟨by decide, ⟨"🚫 Network error: ".data, [], by decide⟩⟩

/-- C9 amended: every failure message except the network-error branch is a
fixed template (parameterised only by the received status code in the
upstream-error case), independent of any exception's text; the network-error
branch alone embeds the caught exception's text. -/
theorem failure_messages_templated (env : Env) (input : String) (hist : List Exchange)
    (k : ErrorKind) (m : String)
    (hfail : (process_medical_query env input hist).result = .failed k m) :
    (k ≠ .networkError →
      m = connectionRefusedMsg ∨ m = emptyResponseMsg ∨
        (∃ s, m = upstreamErrorMsg s) ∨ m = timeoutMsg ∨
        m = connectionErrorMsg ∨ m = unexpectedErrorMsg) ∧
    (k = .networkError → ∃ e, env.gen = .requestExn e ∧ m = networkErrorMsg e) := by
  rcases env with ⟨probe, gen, now⟩
  unfold process_medical_query at hfail
  by_cases hc : test_ollama_connection ⟨probe, gen, now⟩ = false
  · simp [hc] at hfail
    exact ⟨fun _ => Or.inl hfail.2.symm, fun hk => absurd (hk ▸ hfail.1) (by decide)⟩
  · simp only [hc, if_false] at hfail
    cases gen with
    | httpResponse status responseField =>
      by_cases hs : status = 200
      · subst hs
        by_cases he : responseField.getD "" = "" <;> simp [he] at hfail
        exact ⟨fun _ => Or.inr (Or.inl hfail.2.symm),
          fun hk => absurd (hk ▸ hfail.1) (by decide)⟩
      · simp [hs] at hfail
        exact ⟨fun _ => Or.inr (Or.inr (Or.inl ⟨status, hfail.2.symm⟩)),
          fun hk => absurd (hk ▸ hfail.1) (by decide)⟩
    | timeoutExn =>
      simp at hfail
      exact ⟨fun _ => Or.inr (Or.inr (Or.inr (Or.inl hfail.2.symm))),
        fun hk => absurd (hk ▸ hfail.1) (by decide)⟩
    | connectionExn =>
      simp at hfail
      exact ⟨fun _ => Or.inr (Or.inr (Or.inr (Or.inr (Or.inl hfail.2.symm)))),
        fun hk => absurd (hk ▸ hfail.1) (by decide)⟩
    | requestExn e =>
      simp at hfail
      exact ⟨fun hk => absurd hfail.1.symm hk,
        fun _ => ⟨e, rfl, hfail.2.symm⟩⟩
    | otherExn e =>
      simp at hfail
      exact ⟨fun _ => Or.inr (Or.inr (Or.inr (Or.inr (Or.inr hfail.2.symm)))),
        fun hk => absurd (hk ▸ hfail.1) (by decide)⟩

/-- Witness for the amended C9 at a timeout. -/
theorem failure_messages_templated_witness :
    ((process_medical_query ⟨.response 200, .timeoutExn, "t0"⟩ "q" []).result
        = .failed .timeout timeoutMsg) ∧
    (timeoutMsg = connectionRefusedMsg ∨ timeoutMsg = emptyResponseMsg ∨
      (∃ s, timeoutMsg = upstreamErrorMsg s) ∨ timeoutMsg = timeoutMsg ∨
      timeoutMsg = connectionErrorMsg ∨ timeoutMsg = unexpectedErrorMsg) :=
  ⟨by decide,
    (failure_messages_templated ⟨.response 200, .timeoutExn, "t0"⟩ "q" [] .timeout timeoutMsg
      (by decide)).1 (by decide)⟩

/-- C10: a status-200 response whose `response` field is whitespace-only (and
hence non-empty) is treated as success: the result is `ok` with the text
unchanged, an `Exchange` is appended, and `emptyResponse` is not produced. -/
theorem generate_whitespace_response_is_ok (env : Env) (input : String)
    (hist : List Exchange) (t : String)
    (hok : test_ollama_connection env = true)
    (hgen : env.gen = .httpResponse 200 (some t))
    (hws : t.data.all Char.isWhitespace = true)
    (hne : t ≠ "") :
    (process_medical_query env input hist).result = .ok t ∧
    (process_medical_query env input hist).conversation_history
        = hist ++ [⟨input, t, env.now⟩] ∧
    (process_medical_query env input hist).result.kindOf ≠ some .emptyResponse := by
  have hgd : (some t).getD "" = t := rfl
  refine ⟨?_, ?_, ?_⟩
  · unfold process_medical_query
    rw [hgen]
    simp [hok, hne]
  · unfold process_medical_query
    rw [hgen]
    simp [hok, hne]
  · unfold process_medical_query
    rw [hgen]
    simp [hok, hne, GatewayResult.kindOf]

/-- Witness for C10 at the three-space response. -/
theorem generate_whitespace_response_is_ok_witness :
    ("   ".data.all Char.isWhitespace = true) ∧ ("   " ≠ "") ∧
    ((process_medical_query ⟨.response 200, .httpResponse 200 (some "   "), "t0"⟩ "q" []).result
        = .ok "   ") :=
  ⟨by decide, by decide,
    (generate_whitespace_response_is_ok ⟨.response 200, .httpResponse 200 (some "   "), "t0"⟩
      "q" [] "   " (by decide) rfl (by decide) (by decide)).1⟩

lemma runCalls_eq (calls : List (Env × String)) :
    ∀ hist : List Exchange, runCalls calls hist = hist ++ expectedExchanges calls := by
  induction calls with
  | nil => intro hist; simp [runCalls, expectedExchanges]
  | cons c rest ih =>
    intro hist
    rw [runCalls, process_history_append, ih]
    simp [expectedExchanges, List.append_assoc]

lemma expectedExchanges_map_user (calls : List (Env × String)) :
    (expectedExchanges calls).map Exchange.user
      = (calls.filter fun c => (successText c.1).isSome).map Prod.snd := by
  induction calls with
  | nil => simp [expectedExchanges]
  | cons c rest ih =>
    cases hs : successText c.1 with
    | none =>
      simp [expectedExchanges, newEntries, hs, List.filter_cons] at ih ⊢
      exact ih
    | some t =>
      simp [expectedExchanges, newEntries, hs, List.filter_cons] at ih ⊢
      exact ih

/-- C6: running any sequence of calls (successful and failed interleaved)
extends the history by exactly one `Exchange` per successful call, in call
order, and the stored user text of those exchanges is verbatim the input of
the corresponding successful call; in particular the history length grows by
the number of successes. -/
theorem generate_history_roundtrip (calls : List (Env × String)) (hist : List Exchange) :
    runCalls calls hist = hist ++ expectedExchanges calls ∧
    (expectedExchanges calls).map Exchange.user
        = (calls.filter fun c => (successText c.1).isSome).map Prod.snd ∧
    (runCalls calls hist).length
        = hist.length + (calls.filter fun c => (successText c.1).isSome).length := by
  refine ⟨runCalls_eq calls hist, expectedExchanges_map_user calls, ?_⟩
  rw [runCalls_eq calls hist]
  have hlen : (expectedExchanges calls).length
      = (calls.filter fun c => (successText c.1).isSome).length := by
    have := congrArg List.length (expectedExchanges_map_user calls)
    simpa using this
  simp [hlen]

/-- Witness for C1: a successful call appends exactly the new exchange. -/
theorem generate_appends_iff_ok_witness :
    ((process_medical_query ⟨.response 200, .httpResponse 200 (some "hello"), "t0"⟩ "hi" []).result
        = .ok "hello") ∧
    ("hello" ≠ "" ∧
      (process_medical_query ⟨.response 200, .httpResponse 200 (some "hello"), "t0"⟩ "hi" []).conversation_history
        = [] ++ [⟨"hi", "hello", "t0"⟩]) :=
  ⟨by decide,
    (generate_appends_iff_ok ⟨.response 200, .httpResponse 200 (some "hello"), "t0"⟩ "hi" []).2.2
      "hello" (by decide)⟩
